import Mathlib

/-!
Verification of the media-codec decoder-configuration-record codecs
(AVC, HEVC, Dolby Vision) against their natural-language specification.

The Go source is shallowly embedded: a byte stream is a `List Nat` whose
entries are byte values (readers normalize every accessed entry with
`% 256`, mirroring the `uint8` type of the Go buffers); fallible reads
return `Except CodecErr`; writers are pure functions producing the exact
byte sequence the Go `RecordWrite` methods emit to their sink.  Machine
integer arithmetic (`uint8`/`uint16`/`uint32` truncation) is modelled
with explicit `% 2^w`.
-/

set_option maxRecDepth 20000

deriving instance DecidableEq for Except

/-- Error raised when fewer bytes remain than requested: the spec's
`Truncated` error (Go: `io.ErrUnexpectedEOF` from `binary.Read` /
`io.ReadFull`). -/
inductive CodecErr where
  | truncated
deriving DecidableEq, Repr

/-- The byte-source primitive: consume exactly `n` bytes or fail with
`truncated` (Go: `binary.Read` into a fixed-size buffer / `io.ReadFull`). -/
def readBytes (n : Nat) (s : List Nat) : Except CodecErr (List Nat × List Nat) :=
  if n ≤ s.length then .ok (s.take n, s.drop n) else .error .truncated

/-- Access byte `i` of a filled buffer, as a `uint8` value (Go: `tmp[i]`). -/
def byteGet (t : List Nat) (i : Nat) : Nat :=
  t.getD i 0 % 256

/-- Read a big-endian 16-bit unsigned integer
(Go: `binary.Read(r, binary.BigEndian, &x)` with `x : uint16`). -/
def readU16 (s : List Nat) : Except CodecErr (Nat × List Nat) := do
  let (t, s) ← readBytes 2 s
  .ok ((byteGet t 0) <<< 8 ||| byteGet t 1, s)

/-- Run a reader `f` exactly `n` times, collecting the results in order
(Go: the `for i := 0; i < n; i++` read loops). -/
def readN (f : List Nat → Except CodecErr (α × List Nat)) :
    Nat → List Nat → Except CodecErr (List α × List Nat)
  | 0, s => .ok ([], s)
  | n + 1, s => do
    let (x, s) ← f s
    let (xs, s) ← readN f n s
    .ok (x :: xs, s)

/-- Read one 16-bit-length-prefixed byte blob (Go: read a `uint16` length,
then `io.ReadFull` that many bytes — used for NAL units and parameter
sets alike). -/
def readLP (s : List Nat) : Except CodecErr (List Nat × List Nat) := do
  let (len, s) ← readU16 s
  readBytes len s

/-- Emit one 16-bit-length-prefixed byte blob, big endian
(Go: `binary.Write(w, binary.BigEndian, uint16(len(p)))` then writing `p`;
the `uint16` conversion silently truncates the length modulo 2^16). -/
def lpBytes (p : List Nat) : List Nat :=
  [(p.length >>> 8) % 256, p.length % 256] ++ p

/-! ## Dolby Vision decoder configuration record (package `dovi`) -/

/-- `DOVIDecoderConfigurationRecord` from the `dovi` package. -/
structure DOVIDecoderConfigurationRecord where
  VersionMajor : Nat
  VersionMinor : Nat
  Profile : Nat
  Level : Nat
  RPUPresent : Bool
  ELPresent : Bool
  BLPresent : Bool
  BLSignalCompatibilityID : Nat
deriving DecidableEq, Repr

/-- `RecordSize` of the Dolby Vision record: constant 24 bytes. -/
def DOVIDecoderConfigurationRecord.RecordSize
    (_b : DOVIDecoderConfigurationRecord) : Nat := 24

/-- `RecordRead` of the Dolby Vision record: read a 24-byte buffer and
unpack the seven semantic fields from its first five bytes; bytes 4(low)
through 23 are ignored. -/
def DOVIDecoderConfigurationRecord.RecordRead (s : List Nat) :
    Except CodecErr (DOVIDecoderConfigurationRecord × List Nat) := do
  let (t, s) ← readBytes 24 s
  .ok ({ VersionMajor := byteGet t 0
         VersionMinor := byteGet t 1
         Profile := byteGet t 2 >>> 1
         Level := ((byteGet t 2 &&& 1) <<< 5) ||| ((byteGet t 3 &&& 248) >>> 3)
         RPUPresent := decide (0 < byteGet t 3 &&& 4)
         ELPresent := decide (0 < byteGet t 3 &&& 2)
         BLPresent := decide (0 < byteGet t 3 &&& 1)
         BLSignalCompatibilityID := byteGet t 4 >>> 4 }, s)

/-- `RecordWrite` of the Dolby Vision record: a 24-byte buffer, bytes 0-4
packed from the fields (with `uint8` truncation on the shifts) and 19
zero padding bytes. -/
def DOVIDecoderConfigurationRecord.RecordWrite
    (b : DOVIDecoderConfigurationRecord) : List Nat :=
  [b.VersionMajor % 256,
   b.VersionMinor % 256,
   ((b.Profile <<< 1) % 256) ||| ((b.Level >>> 5) &&& 1),
   (let t3 := ((b.Level <<< 3) % 256) &&& 248
    let t3 := if b.RPUPresent then t3 ||| 4 else t3
    let t3 := if b.ELPresent then t3 ||| 2 else t3
    if b.BLPresent then t3 ||| 1 else t3),
   (b.BLSignalCompatibilityID <<< 4) % 256] ++ List.replicate 19 0

/-! ## AVC decoder configuration record (package `avc`) -/

/-- `AVCDecoderConfigurationRecord` from the `avc` package.  The Go
parameter-set wrapper structs (`AVCSequenceParameterSet` etc.) hold a
single `NALUnit []byte` field each; they are embedded directly as the
byte blobs. -/
structure AVCDecoderConfigurationRecord where
  ConfigurationVersion : Nat
  AVCProfileIndication : Nat
  ProfileCompatibility : Nat
  AVCLevelIndication : Nat
  LengthSizeMinusOne : Nat
  SequenceParameterSets : List (List Nat)
  PictureParameterSets : List (List Nat)
  ChromaFormat : Nat
  BitDepthLumaMinus8 : Nat
  BitDepthChromaMinus8 : Nat
  SequenceParameterSetExts : List (List Nat)
deriving DecidableEq, Repr

/-- `RecordSize` of the AVC record.  Go accumulates into a `uint32`;
summing first and reducing modulo 2^32 once is equivalent. -/
def AVCDecoderConfigurationRecord.RecordSize
    (b : AVCDecoderConfigurationRecord) : Nat :=
  (6 + ((b.SequenceParameterSets.map (fun p => 2 + p.length)).sum)
     + 1 + ((b.PictureParameterSets.map (fun p => 2 + p.length)).sum)
     + (if b.AVCProfileIndication == 100 || b.AVCProfileIndication == 110
           || b.AVCProfileIndication == 122 || b.AVCProfileIndication == 144
        then 4 + ((b.SequenceParameterSetExts.map (fun p => 2 + p.length)).sum)
        else 0)) % 2 ^ 32

/-- `RecordRead` of the AVC record.  A fresh record is produced; when the
extension section is absent the extension fields keep the Go zero
values. -/
def AVCDecoderConfigurationRecord.RecordRead (s : List Nat) :
    Except CodecErr (AVCDecoderConfigurationRecord × List Nat) := do
  let (t, s) ← readBytes 6 s
  let (spss, s) ← readN readLP (byteGet t 5 &&& 31) s
  let (c, s) ← readBytes 1 s
  let (ppss, s) ← readN readLP (byteGet c 0) s
  if byteGet t 1 == 100 || byteGet t 1 == 110
      || byteGet t 1 == 122 || byteGet t 1 == 144 then
    let (e, s) ← readBytes 4 s
    let (exts, s) ← readN readLP (byteGet e 3) s
    .ok ({ ConfigurationVersion := byteGet t 0
           AVCProfileIndication := byteGet t 1
           ProfileCompatibility := byteGet t 2
           AVCLevelIndication := byteGet t 3
           LengthSizeMinusOne := byteGet t 4 &&& 3
           SequenceParameterSets := spss
           PictureParameterSets := ppss
           ChromaFormat := byteGet e 0 &&& 3
           BitDepthLumaMinus8 := byteGet e 1 &&& 7
           BitDepthChromaMinus8 := byteGet e 2 &&& 7
           SequenceParameterSetExts := exts }, s)
  else
    .ok ({ ConfigurationVersion := byteGet t 0
           AVCProfileIndication := byteGet t 1
           ProfileCompatibility := byteGet t 2
           AVCLevelIndication := byteGet t 3
           LengthSizeMinusOne := byteGet t 4 &&& 3
           SequenceParameterSets := spss
           PictureParameterSets := ppss
           ChromaFormat := 0
           BitDepthLumaMinus8 := 0
           BitDepthChromaMinus8 := 0
           SequenceParameterSetExts := [] }, s)

/-- `RecordWrite` of the AVC record: the 6 header bytes (reserved bits
OR-ed in), the two parameter-set arrays, and the extension section iff
the profile indication is one of 100, 110, 122, 144. -/
def AVCDecoderConfigurationRecord.RecordWrite
    (b : AVCDecoderConfigurationRecord) : List Nat :=
  [b.ConfigurationVersion % 256,
   b.AVCProfileIndication % 256,
   b.ProfileCompatibility % 256,
   b.AVCLevelIndication % 256,
   (b.LengthSizeMinusOne ||| 252) % 256,
   ((b.SequenceParameterSets.length % 256) ||| 224) % 256]
  ++ (b.SequenceParameterSets.map lpBytes).flatten
  ++ [b.PictureParameterSets.length % 256]
  ++ (b.PictureParameterSets.map lpBytes).flatten
  ++ (if b.AVCProfileIndication == 100 || b.AVCProfileIndication == 110
         || b.AVCProfileIndication == 122 || b.AVCProfileIndication == 144
      then
        [(b.ChromaFormat ||| 252) % 256,
         (b.BitDepthLumaMinus8 ||| 248) % 256,
         (b.BitDepthChromaMinus8 ||| 248) % 256,
         b.SequenceParameterSetExts.length % 256]
        ++ (b.SequenceParameterSetExts.map lpBytes).flatten
      else [])

/-! ## HEVC decoder configuration record (package `hevc`) -/

/-- `NaluArray` from the `hevc` package (`NALUnitType` is the `NaluType`
integer tag). -/
structure NaluArray where
  ArrayCompleteness : Bool
  NALUnitType : Nat
  NALUs : List (List Nat)
deriving DecidableEq, Repr

/-- `HEVCDecoderConfigurationRecord` from the `hevc` package. -/
structure HEVCDecoderConfigurationRecord where
  ConfigurationVersion : Nat
  GeneralProfileSpace : Nat
  GeneralTierFlag : Bool
  GenertalProfileIndicator : Nat
  GeneralProfileCompatibilityFlags : Nat
  GeneralConstraintIndicatorFlags : Nat
  GeneralLevelIndicator : Nat
  MinSpatialSegmentationIndicator : Nat
  ParallelismType : Nat
  ChromaFormatIndicator : Nat
  BitDepthLumaMinus8 : Nat
  BitDepthChromaMinus8 : Nat
  AvgFrameRate : Nat
  ConstantFrameRate : Nat
  NumTemporalLayers : Nat
  TemporalIDNested : Nat
  LengthSizeMinusOne : Nat
  NaluArrays : List NaluArray
deriving DecidableEq, Repr

/-- `RecordSize` of the HEVC record: 23 fixed header bytes, 3 bytes per
NAL array, a 2-byte length per NAL unit plus its payload.  Go
accumulates into a `uint32`; summing first and reducing modulo 2^32 once
is equivalent. -/
def HEVCDecoderConfigurationRecord.RecordSize
    (b : HEVCDecoderConfigurationRecord) : Nat :=
  (23 + 3 * b.NaluArrays.length
     + ((b.NaluArrays.map (fun a => (a.NALUs.map List.length).sum)).sum)
     + 2 * ((b.NaluArrays.map (fun a => a.NALUs.length)).sum)) % 2 ^ 32

/-- Field unpacking of the 23-byte fixed HEVC header (Go: the
assignments from `tmp` in `RecordRead`); the NAL arrays read afterwards
are passed in. -/
def hevcParseHeader (t : List Nat) (arrays : List NaluArray) :
    HEVCDecoderConfigurationRecord :=
  { ConfigurationVersion := byteGet t 0
    GeneralProfileSpace := byteGet t 1 >>> 6
    GeneralTierFlag := decide (0 < (byteGet t 1 >>> 5) &&& 1)
    GenertalProfileIndicator := byteGet t 1 &&& 31
    GeneralProfileCompatibilityFlags :=
      (byteGet t 2 <<< 24) ||| (byteGet t 3 <<< 16) ||| (byteGet t 4 <<< 8) ||| byteGet t 5
    GeneralConstraintIndicatorFlags :=
      (byteGet t 6 <<< 40) ||| (byteGet t 7 <<< 32) ||| (byteGet t 8 <<< 24)
        ||| (byteGet t 9 <<< 16) ||| (byteGet t 10 <<< 8) ||| byteGet t 11
    GeneralLevelIndicator := byteGet t 12
    MinSpatialSegmentationIndicator := ((byteGet t 13 &&& 15) <<< 8) ||| byteGet t 14
    ParallelismType := byteGet t 15 &&& 3
    ChromaFormatIndicator := byteGet t 16 &&& 3
    BitDepthLumaMinus8 := byteGet t 17 &&& 7
    BitDepthChromaMinus8 := byteGet t 18 &&& 7
    AvgFrameRate := (byteGet t 19 <<< 8) ||| byteGet t 20
    ConstantFrameRate := byteGet t 21 >>> 6
    NumTemporalLayers := (byteGet t 21 >>> 3) &&& 7
    TemporalIDNested := (byteGet t 21 >>> 2) &&& 1
    LengthSizeMinusOne := byteGet t 21 &&& 3
    NaluArrays := arrays }

/-- Read one NAL array (Go: the body of the `entryCount` loop in the
HEVC `RecordRead`): a completeness/type byte, a 12-bit NAL count (the
top 4 bits of the 16-bit field are masked off), then that many
length-prefixed NAL units. -/
def hevcReadArray (s : List Nat) : Except CodecErr (NaluArray × List Nat) := do
  let (h, s) ← readBytes 3 s
  let (nalus, s) ← readN readLP (((byteGet h 1 &&& 15) <<< 8) ||| byteGet h 2) s
  .ok ({ ArrayCompleteness := decide (0 < byteGet h 0 >>> 7)
         NALUnitType := byteGet h 0 &&& 63
         NALUs := nalus }, s)

/-- `RecordRead` of the HEVC record: the 23-byte fixed header followed
by `tmp[22]` NAL arrays. -/
def HEVCDecoderConfigurationRecord.RecordRead (s : List Nat) :
    Except CodecErr (HEVCDecoderConfigurationRecord × List Nat) := do
  let (t, s) ← readBytes 23 s
  let (arrays, s) ← readN hevcReadArray (byteGet t 22) s
  .ok (hevcParseHeader t arrays, s)

/-- Byte sequence emitted for one NAL array by the HEVC `RecordWrite`:
completeness/type byte, `uint16` NAL count, then each NAL unit with a
`uint16` length. -/
def NaluArray.writeBytes (a : NaluArray) : List Nat :=
  [((a.NALUnitType &&& 63) ||| (if a.ArrayCompleteness then 128 else 0)) % 256,
   (a.NALUs.length >>> 8) % 256, a.NALUs.length % 256]
  ++ (a.NALUs.map lpBytes).flatten

/-- `RecordWrite` of the HEVC record, byte for byte as the Go code emits
it: note that the tier flag is OR-ed in as `0b10000` (bit 4), and the
reserved-bit masks for the parallelism-type, chroma-format and both
bit-depth bytes are OR-ed into the LOW bits (`x|0b111111`, `x|0b11111`). -/
def HEVCDecoderConfigurationRecord.RecordWrite
    (b : HEVCDecoderConfigurationRecord) : List Nat :=
  [b.ConfigurationVersion % 256,
   ((((b.GeneralProfileSpace <<< 6) % 256) ||| (b.GenertalProfileIndicator &&& 31))
     ||| (if b.GeneralTierFlag then 16 else 0)) % 256,
   (b.GeneralProfileCompatibilityFlags >>> 24) % 256,
   (b.GeneralProfileCompatibilityFlags >>> 16) % 256,
   (b.GeneralProfileCompatibilityFlags >>> 8) % 256,
   b.GeneralProfileCompatibilityFlags % 256,
   ((b.GeneralConstraintIndicatorFlags >>> 32) >>> 8) % 256,
   (b.GeneralConstraintIndicatorFlags >>> 32) % 256,
   (b.GeneralConstraintIndicatorFlags >>> 24) % 256,
   (b.GeneralConstraintIndicatorFlags >>> 16) % 256,
   (b.GeneralConstraintIndicatorFlags >>> 8) % 256,
   b.GeneralConstraintIndicatorFlags % 256,
   b.GeneralLevelIndicator % 256,
   ((b.MinSpatialSegmentationIndicator ||| (15 <<< 12)) >>> 8) % 256,
   (b.MinSpatialSegmentationIndicator ||| (15 <<< 12)) % 256,
   (b.ParallelismType ||| 63) % 256,
   (b.ChromaFormatIndicator ||| 63) % 256,
   (b.BitDepthLumaMinus8 ||| 31) % 256,
   (b.BitDepthChromaMinus8 ||| 31) % 256,
   (b.AvgFrameRate >>> 8) % 256,
   b.AvgFrameRate % 256,
   ((((b.ConstantFrameRate <<< 6) % 256) ||| ((b.NumTemporalLayers &&& 7) <<< 3))
     ||| ((b.TemporalIDNested &&& 1) <<< 2) ||| (b.LengthSizeMinusOne &&& 3)) % 256,
   b.NaluArrays.length % 256]
  ++ (b.NaluArrays.map NaluArray.writeBytes).flatten

/-! ## HEVC record builder (`CreateHEVCDecoderConfigurationRecord`) -/

/-- Modelled from the spec: the error of the Parameter-Set Parser
collaborator (`MalformedParameterSet`, propagated unchanged during
building); `ParseSPSNALUnit` itself is outside the embedded source. -/
inductive ParseErr where
  | malformedParameterSet
deriving DecidableEq, Repr

/-- Modelled from the spec: the fields the builder consumes from the
Parameter-Set Parser collaborator's `parseSPS` result
(profile_tier_level plus chroma-format / bit-depth fields). -/
structure HEVCSPSInfo where
  GeneralProfileSpace : Nat
  GeneralTierFlag : Bool
  GeneralProfileIndicator : Nat
  GeneralProfileCompatibilityFlags : Nat
  GeneralConstraintIndicatorFlags : Nat
  GeneralLevelIndicator : Nat
  ChromaFormatIndicator : Nat
  BitDepthLumaMinus8 : Nat
  BitDepthChromaMinus8 : Nat
deriving DecidableEq, Repr

/-- Modelled from the spec: NAL-unit-type tags for VPS/SPS/PPS arrays
(`NALU_VPS`, `NALU_SPS`, `NALU_PPS` of the `hevc` package; the standard
HEVC values). -/
def NALU_VPS : Nat := 32

/-- SPS NAL-unit-type tag. -/
def NALU_SPS : Nat := 33

/-- PPS NAL-unit-type tag. -/
def NALU_PPS : Nat := 34

/-- Outcome of running the builder: a record, a returned error, or a Go
runtime fault (index out of range). -/
inductive BuildResult where
  | ok (r : HEVCDecoderConfigurationRecord)
  | error (e : ParseErr)
  | fault
deriving DecidableEq, Repr

/-- `CreateHEVCDecoderConfigurationRecord`, parameterized by the
Parameter-Set Parser collaborator.  The Go code begins with
`ParseSPSNALUnit(spsNalus[0])`: on an empty `spsNalus` slice this is an
index-out-of-range runtime panic, modelled as `.fault`. -/
def CreateHEVCDecoderConfigurationRecord
    (parseSPS : List Nat → Except ParseErr HEVCSPSInfo)
    (vpsNalus spsNalus ppsNalus : List (List Nat))
    (vpsComplete spsComplete ppsComplete : Bool) : BuildResult :=
  match spsNalus with
  | [] => .fault
  | sps0 :: _ =>
    match parseSPS sps0 with
    | .error e => .error e
    | .ok sps =>
      .ok { ConfigurationVersion := 1
            GeneralProfileSpace := sps.GeneralProfileSpace
            GeneralTierFlag := sps.GeneralTierFlag
            GenertalProfileIndicator := sps.GeneralProfileIndicator
            GeneralProfileCompatibilityFlags := sps.GeneralProfileCompatibilityFlags
            GeneralConstraintIndicatorFlags := sps.GeneralConstraintIndicatorFlags
            GeneralLevelIndicator := sps.GeneralLevelIndicator
            MinSpatialSegmentationIndicator := 0
            ParallelismType := 0
            ChromaFormatIndicator := sps.ChromaFormatIndicator
            BitDepthLumaMinus8 := sps.BitDepthLumaMinus8
            BitDepthChromaMinus8 := sps.BitDepthChromaMinus8
            AvgFrameRate := 0
            ConstantFrameRate := 0
            NumTemporalLayers := 0
            TemporalIDNested := 0
            LengthSizeMinusOne := 3
            NaluArrays :=
              [{ ArrayCompleteness := vpsComplete, NALUnitType := NALU_VPS, NALUs := vpsNalus },
               { ArrayCompleteness := spsComplete, NALUnitType := NALU_SPS, NALUs := spsNalus },
               { ArrayCompleteness := ppsComplete, NALUnitType := NALU_PPS, NALUs := ppsNalus }] }

/-! ## Declared valid field ranges (spec §3) and concrete records -/

/-- Declared valid ranges of the Dolby Vision record's fields: byte
version fields, 7-bit profile, 6-bit level, 4-bit compatibility id. -/
def DOVIDecoderConfigurationRecord.FieldsValid
    (b : DOVIDecoderConfigurationRecord) : Prop :=
  b.VersionMajor < 256 ∧ b.VersionMinor < 256 ∧ b.Profile < 128 ∧
    b.Level < 64 ∧ b.BLSignalCompatibilityID < 16

instance (b : DOVIDecoderConfigurationRecord) : Decidable b.FieldsValid := by
  unfold DOVIDecoderConfigurationRecord.FieldsValid
  infer_instance

/-- Declared valid ranges of the AVC record's fields: byte-wide header
fields, 2-bit length-size, 5-bit SPS count, 8-bit PPS/ext counts, 16-bit
parameter-set lengths, 2-bit chroma format, 3-bit bit depths. -/
def AVCDecoderConfigurationRecord.FieldsValid
    (b : AVCDecoderConfigurationRecord) : Prop :=
  b.ConfigurationVersion < 256 ∧ b.AVCProfileIndication < 256 ∧
    b.ProfileCompatibility < 256 ∧ b.AVCLevelIndication < 256 ∧
    b.LengthSizeMinusOne < 4 ∧
    b.SequenceParameterSets.length < 32 ∧
    (∀ p ∈ b.SequenceParameterSets, p.length < 65536) ∧
    b.PictureParameterSets.length < 256 ∧
    (∀ p ∈ b.PictureParameterSets, p.length < 65536) ∧
    b.ChromaFormat < 4 ∧ b.BitDepthLumaMinus8 < 8 ∧ b.BitDepthChromaMinus8 < 8 ∧
    b.SequenceParameterSetExts.length < 256 ∧
    (∀ p ∈ b.SequenceParameterSetExts, p.length < 65536)

instance (b : AVCDecoderConfigurationRecord) : Decidable b.FieldsValid := by
  unfold AVCDecoderConfigurationRecord.FieldsValid
  infer_instance

/-- Declared valid ranges of one NAL array: 6-bit type tag, 12-bit NAL
count, 16-bit NAL unit lengths. -/
def NaluArray.FieldsValid (a : NaluArray) : Prop :=
  a.NALUnitType < 64 ∧ a.NALUs.length < 4096 ∧ ∀ n ∈ a.NALUs, n.length < 65536

instance (a : NaluArray) : Decidable a.FieldsValid := by
  unfold NaluArray.FieldsValid
  infer_instance

/-- Declared valid ranges of the HEVC record's fields (spec §3): 2-bit
profile space, 5-bit profile indicator, 32-bit compatibility flags,
48-bit constraint flags, 12-bit min-spatial-segmentation, 2-bit
parallelism/chroma, 3-bit bit depths, 16-bit frame rate, 2-bit
constant-frame-rate, 3-bit temporal layers, 1-bit nesting, 2-bit
length-size, 8-bit array count. -/
def HEVCDecoderConfigurationRecord.FieldsValid
    (b : HEVCDecoderConfigurationRecord) : Prop :=
  b.ConfigurationVersion < 256 ∧ b.GeneralProfileSpace < 4 ∧
    b.GenertalProfileIndicator < 32 ∧
    b.GeneralProfileCompatibilityFlags < 2 ^ 32 ∧
    b.GeneralConstraintIndicatorFlags < 2 ^ 48 ∧
    b.GeneralLevelIndicator < 256 ∧
    b.MinSpatialSegmentationIndicator < 4096 ∧
    b.ParallelismType < 4 ∧ b.ChromaFormatIndicator < 4 ∧
    b.BitDepthLumaMinus8 < 8 ∧ b.BitDepthChromaMinus8 < 8 ∧
    b.AvgFrameRate < 65536 ∧ b.ConstantFrameRate < 4 ∧
    b.NumTemporalLayers < 8 ∧ b.TemporalIDNested < 2 ∧
    b.LengthSizeMinusOne < 4 ∧
    b.NaluArrays.length < 256 ∧ ∀ a ∈ b.NaluArrays, a.FieldsValid

instance (b : HEVCDecoderConfigurationRecord) : Decidable b.FieldsValid := by
  unfold HEVCDecoderConfigurationRecord.FieldsValid
  infer_instance

/-- The HEVC record with every field zero / false / empty. -/
def hevcZeroRec : HEVCDecoderConfigurationRecord :=
  { ConfigurationVersion := 0, GeneralProfileSpace := 0, GeneralTierFlag := false
    GenertalProfileIndicator := 0, GeneralProfileCompatibilityFlags := 0
    GeneralConstraintIndicatorFlags := 0, GeneralLevelIndicator := 0
    MinSpatialSegmentationIndicator := 0, ParallelismType := 0
    ChromaFormatIndicator := 0, BitDepthLumaMinus8 := 0, BitDepthChromaMinus8 := 0
    AvgFrameRate := 0, ConstantFrameRate := 0, NumTemporalLayers := 0
    TemporalIDNested := 0, LengthSizeMinusOne := 0, NaluArrays := [] }

/-- Concrete scenario A of the spec (§8): HEVC record with version 1,
profile indicator 1, compatibility flags 0x60000000, constraint flags
0xB00050F00000, level 93, length-size-minus-one 3, and one VPS (5
bytes), one SPS (20 bytes), one PPS (10 bytes) array, each complete. -/
def hevcScenarioA : HEVCDecoderConfigurationRecord :=
  { hevcZeroRec with
    ConfigurationVersion := 1
    GenertalProfileIndicator := 1
    GeneralProfileCompatibilityFlags := 0x60000000
    GeneralConstraintIndicatorFlags := 0xB00050F00000
    GeneralLevelIndicator := 93
    LengthSizeMinusOne := 3
    NaluArrays :=
      [{ ArrayCompleteness := true, NALUnitType := NALU_VPS, NALUs := [List.replicate 5 0] },
       { ArrayCompleteness := true, NALUnitType := NALU_SPS, NALUs := [List.replicate 20 0] },
       { ArrayCompleteness := true, NALUnitType := NALU_PPS, NALUs := [List.replicate 10 0] }] }

/-- NAL array holding a single NAL unit of 65536 bytes (one more than
the 16-bit length field can carry). -/
def hevcOver64kArr : NaluArray :=
  { ArrayCompleteness := true, NALUnitType := NALU_SPS
    NALUs := [List.replicate 65536 0] }

/-- HEVC record holding a single NAL unit of 65536 bytes. -/
def hevcOver64k : HEVCDecoderConfigurationRecord :=
  { hevcZeroRec with NaluArrays := [hevcOver64kArr] }

/-- The 23 header bytes `RecordWrite` emits for `hevcOver64k` (all-zero
scalar fields, one NAL array). -/
def hevcOver64kHdr : List Nat :=
  [0, 0, 0, 0, 0, 0, 0, 0, 0, 0, 0, 0, 0, 240, 0, 63, 63, 31, 31, 0, 0, 0, 1]

/-- NAL array holding a single NAL unit of exactly 65535 bytes. -/
def hevcMax64kArr : NaluArray :=
  { ArrayCompleteness := true, NALUnitType := NALU_SPS
    NALUs := [List.replicate 65535 7] }

/-- HEVC record holding a single NAL unit of exactly 65535 bytes; the
scalar fields that the buggy reserved-bit masks force on the wire
(parallelism type 3, chroma format 3, bit depths 7) are chosen so the
fixed header also survives the round trip. -/
def hevcMax64k : HEVCDecoderConfigurationRecord :=
  { hevcZeroRec with
    ParallelismType := 3, ChromaFormatIndicator := 3
    BitDepthLumaMinus8 := 7, BitDepthChromaMinus8 := 7
    NaluArrays := [hevcMax64kArr] }

/-- NAL array holding a single NAL unit of 2^32 payload bytes. -/
def hevcHugeArr : NaluArray :=
  { ArrayCompleteness := true, NALUnitType := NALU_SPS
    NALUs := [List.replicate (2 ^ 32) 0] }

/-- HEVC record whose single NAL unit has 2^32 payload bytes, making the
total encoded length overflow the `uint32` size accumulator. -/
def hevcHuge : HEVCDecoderConfigurationRecord :=
  { hevcZeroRec with NaluArrays := [hevcHugeArr] }

/-- AVC record with profile indication 66 (no extension section) holding
one SPS and one PPS. -/
def avcBaseline : AVCDecoderConfigurationRecord :=
  { ConfigurationVersion := 1, AVCProfileIndication := 66, ProfileCompatibility := 0
    AVCLevelIndication := 30, LengthSizeMinusOne := 3
    SequenceParameterSets := [[103, 66, 0]], PictureParameterSets := [[104, 206]]
    ChromaFormat := 0, BitDepthLumaMinus8 := 0, BitDepthChromaMinus8 := 0
    SequenceParameterSetExts := [] }

/-- AVC record with profile indication 100 (extension section present)
and one SPS-extension entry. -/
def avcHigh : AVCDecoderConfigurationRecord :=
  { avcBaseline with
    AVCProfileIndication := 100
    ChromaFormat := 1
    BitDepthLumaMinus8 := 2
    BitDepthChromaMinus8 := 3
    SequenceParameterSetExts := [[13]] }

/-- AVC record with 32 sequence parameter sets — one more than the 5-bit
count field can carry. -/
def avcOverSPS : AVCDecoderConfigurationRecord :=
  { avcBaseline with SequenceParameterSets := List.replicate 32 [] }

/-- Concrete scenario B of the spec (§8): Dolby Vision record with
major 1, minor 0, profile 5, level 3, RPU and BL present, EL absent,
BL-signal-compatibility id 2. -/
def doviScenarioB : DOVIDecoderConfigurationRecord :=
  { VersionMajor := 1, VersionMinor := 0, Profile := 5, Level := 3
    RPUPresent := true, ELPresent := false, BLPresent := true
    BLSignalCompatibilityID := 2 }

/-- HEVC record that only sets the general tier flag (with the other
wire-forced scalar fields at their on-wire fixed points). -/
def hevcTierRec : HEVCDecoderConfigurationRecord :=
  { hevcZeroRec with
    GeneralTierFlag := true
    ParallelismType := 3
    ChromaFormatIndicator := 3
    BitDepthLumaMinus8 := 7
    BitDepthChromaMinus8 := 7 }

/-- HEVC record with small nonzero parallelism/chroma/bit-depth values,
used to show encode clobbers those field bits. -/
def hevcBitsRec : HEVCDecoderConfigurationRecord :=
  { hevcZeroRec with
    ParallelismType := 1
    ChromaFormatIndicator := 2
    BitDepthLumaMinus8 := 1
    BitDepthChromaMinus8 := 2 }

/-- What decoding the encoded scenario-A record actually produces: the
four fields clobbered by the reserved-bit write bug come back as the
all-ones field patterns. -/
def hevcScenarioADecoded : HEVCDecoderConfigurationRecord :=
  { hevcScenarioA with
    ParallelismType := 3
    ChromaFormatIndicator := 3
    BitDepthLumaMinus8 := 7
    BitDepthChromaMinus8 := 7 }

/-! ## General helper lemmas -/

theorem cbind_ok {α β : Type} (a : α) (f : α → Except CodecErr β) :
    (Bind.bind (Except.ok a) f : Except CodecErr β) = f a := rfl

theorem cbind_error {α β : Type} (e : CodecErr) (f : α → Except CodecErr β) :
    (Bind.bind (Except.error e : Except CodecErr α) f : Except CodecErr β) = .error e := rfl

theorem lor_eq_add_of_dvd {k a b : Nat} (ha : 2 ^ k ∣ a) (hb : b < 2 ^ k) :
    a ||| b = a + b := by
  obtain ⟨m, rfl⟩ := ha
  rw [← Nat.mul_add_lt_is_or hb]

theorem shiftLeft_lor_eq_add {k b : Nat} (a : Nat) (hb : b < 2 ^ k) :
    (a <<< k) ||| b = a * 2 ^ k + b := by
  rw [Nat.shiftLeft_eq]
  exact lor_eq_add_of_dvd ⟨a, Nat.mul_comm a (2 ^ k)⟩ hb

theorem readBytes_append {n : Nat} (xs rest : List Nat) (h : xs.length = n) :
    readBytes n (xs ++ rest) = .ok (xs, rest) := by
  subst h
  rw [readBytes, if_pos (by simp), List.take_left, List.drop_left]

theorem readBytes_exact {n : Nat} (s : List Nat) (h : s.length = n) :
    readBytes n s = .ok (s, []) := by
  have := readBytes_append s [] h
  simpa using this

theorem readBytes_short {n : Nat} (s : List Nat) (h : s.length < n) :
    readBytes n s = .error .truncated := by
  rw [readBytes, if_neg (by omega)]

theorem readN_length {α : Type} {f : List Nat → Except CodecErr (α × List Nat)}
    {n : Nat} {s s' : List Nat} {xs : List α}
    (h : readN f n s = .ok (xs, s')) : xs.length = n := by
  induction n generalizing s xs with
  | zero =>
    simp only [readN] at h
    cases h
    rfl
  | succ n ih =>
    simp only [readN] at h
    cases hf : f s with
    | error e => rw [hf, cbind_error] at h; cases h
    | ok p =>
      rw [hf, cbind_ok] at h
      cases hr : readN f n p.2 with
      | error e => rw [hr, cbind_error] at h; cases h
      | ok q =>
        rw [hr, cbind_ok] at h
        cases h
        simp [ih hr]

theorem readN_mem {α : Type} {f : List Nat → Except CodecErr (α × List Nat)}
    {n : Nat} {s s' : List Nat} {xs : List α}
    (h : readN f n s = .ok (xs, s')) :
    ∀ x ∈ xs, ∃ s1 s2, f s1 = .ok (x, s2) := by
  induction n generalizing s xs with
  | zero =>
    simp only [readN] at h
    cases h
    simp
  | succ n ih =>
    simp only [readN] at h
    cases hf : f s with
    | error e => rw [hf, cbind_error] at h; cases h
    | ok p =>
      rw [hf, cbind_ok] at h
      cases hr : readN f n p.2 with
      | error e => rw [hr, cbind_error] at h; cases h
      | ok q =>
        rw [hr, cbind_ok] at h
        cases h
        intro x hx
        rcases List.mem_cons.mp hx with rfl | hx
        · exact ⟨s, p.2, by rw [hf]⟩
        · exact ih hr x hx

theorem readN_flatten {α : Type} {f : List Nat → Except CodecErr (α × List Nat)}
    {enc : α → List Nat} (L : List α) (rest : List Nat)
    (hf : ∀ x ∈ L, ∀ r, f (enc x ++ r) = .ok (x, r)) :
    readN f L.length ((L.map enc).flatten ++ rest) = .ok (L, rest) := by
  induction L with
  | nil => simp [readN]
  | cons x L ih =>
    simp only [List.map_cons, List.flatten_cons, List.length_cons, readN, List.append_assoc]
    rw [hf x (by simp) ((L.map enc).flatten ++ rest), cbind_ok]
    rw [ih (fun y hy r => hf y (by simp [hy]) r), cbind_ok]

theorem u16_bytes_round {L : Nat} (h : L < 65536) :
    ((L >>> 8) % 256 % 256) <<< 8 ||| (L % 256 % 256) = L := by
  rw [Nat.shiftRight_eq_div_pow] at *
  rw [shiftLeft_lor_eq_add _ (by omega)]
  norm_num
  omega

theorem readLP_lpBytes (p : List Nat) (h : p.length < 65536) (rest : List Nat) :
    readLP (lpBytes p ++ rest) = .ok (p, rest) := by
  rw [lpBytes, List.append_assoc, readLP, readU16,
    readBytes_append (n := 2) [(p.length >>> 8) % 256, p.length % 256] (p ++ rest) rfl,
    cbind_ok]
  simp only [byteGet, List.getD_cons_zero, List.getD_cons_succ]
  rw [u16_bytes_round h, cbind_ok]
  exact readBytes_append p rest rfl

/-! ## Bit-manipulation helper lemmas -/

theorem and3_eq (x : Nat) : x &&& 3 = x % 4 := by
  simpa using Nat.and_pow_two_sub_one_eq_mod x 2

theorem and7_eq (x : Nat) : x &&& 7 = x % 8 := by
  simpa using Nat.and_pow_two_sub_one_eq_mod x 3

theorem and15_eq (x : Nat) : x &&& 15 = x % 16 := by
  simpa using Nat.and_pow_two_sub_one_eq_mod x 4

theorem and31_eq (x : Nat) : x &&& 31 = x % 32 := by
  simpa using Nat.and_pow_two_sub_one_eq_mod x 5

theorem and63_eq (x : Nat) : x &&& 63 = x % 64 := by
  simpa using Nat.and_pow_two_sub_one_eq_mod x 6

theorem and_flag (x i : Nat) : x &&& 2 ^ i = x / 2 ^ i % 2 * 2 ^ i := by
  rw [Nat.and_two_pow, Nat.testBit_to_div_mod]
  rcases Nat.mod_two_eq_zero_or_one (x / 2 ^ i) with h | h <;> simp [h]

theorem and4_flag (x : Nat) : x &&& 4 = x / 4 % 2 * 4 := by
  simpa using and_flag x 2

theorem and2_flag (x : Nat) : x &&& 2 = x / 2 % 2 * 2 := by
  simpa using and_flag x 1

theorem and1_flag (x : Nat) : x &&& 1 = x % 2 := Nat.and_one_is_mod x

theorem and248_eq (m e : Nat) (hm : m < 32) (he : e < 8) :
    (8 * m + e) &&& 248 = 8 * m := by
  interval_cases m <;> interval_cases e <;> rfl

/-! ## Dolby Vision codec lemmas -/

theorem lor4_eq (a : Nat) (h : a % 8 = 0) : a ||| 4 = a + 4 :=
  lor_eq_add_of_dvd (k := 3) (by omega) (by omega)

theorem lor2_eq (a : Nat) (h : a % 4 = 0) : a ||| 2 = a + 2 :=
  lor_eq_add_of_dvd (k := 2) (by omega) (by omega)

theorem lor1_eq (a : Nat) (h : a % 2 = 0) : a ||| 1 = a + 1 :=
  lor_eq_add_of_dvd (k := 1) (by omega) (by omega)

theorem dovi_write_t3 (l : Nat) (hl : l < 64) (rpu el bl : Bool) :
    (let t3 := ((l <<< 3) % 256) &&& 248
     let t3 := if rpu then t3 ||| 4 else t3
     let t3 := if el then t3 ||| 2 else t3
     if bl then t3 ||| 1 else t3)
    = 8 * (l % 32) + (if rpu then 4 else 0) + (if el then 2 else 0)
        + (if bl then 1 else 0) := by
  have hbase : ((l <<< 3) % 256) &&& 248 = 8 * (l % 32) := by
    rw [Nat.shiftLeft_eq]
    have h8 : l * 2 ^ 3 % 256 = 8 * (l % 32) + 0 := by omega
    rw [h8, and248_eq _ 0 (by omega) (by omega)]
  cases rpu <;> cases el <;> cases bl <;> simp [hbase]
  all_goals repeat rw [lor4_eq _ (by omega)]
  all_goals repeat rw [lor2_eq _ (by omega)]
  all_goals repeat rw [lor1_eq _ (by omega)]
  all_goals omega

theorem lor_eq_addP (k a b : Nat) (ha : a % 2 ^ k = 0) (hb : b < 2 ^ k) :
    a ||| b = a + b :=
  lor_eq_add_of_dvd (Nat.dvd_of_mod_eq_zero ha) hb

theorem shl1 (x : Nat) : x <<< 1 = x * 2 := by rw [Nat.shiftLeft_eq]
theorem shl2 (x : Nat) : x <<< 2 = x * 4 := by rw [Nat.shiftLeft_eq]
theorem shl3 (x : Nat) : x <<< 3 = x * 8 := by rw [Nat.shiftLeft_eq]
theorem shl4 (x : Nat) : x <<< 4 = x * 16 := by rw [Nat.shiftLeft_eq]
theorem shl5 (x : Nat) : x <<< 5 = x * 32 := by rw [Nat.shiftLeft_eq]
theorem shl6 (x : Nat) : x <<< 6 = x * 64 := by rw [Nat.shiftLeft_eq]
theorem shl8 (x : Nat) : x <<< 8 = x * 256 := by rw [Nat.shiftLeft_eq]
theorem shl12 (x : Nat) : x <<< 12 = x * 4096 := by rw [Nat.shiftLeft_eq]
theorem shl16 (x : Nat) : x <<< 16 = x * 65536 := by rw [Nat.shiftLeft_eq]
theorem shl24 (x : Nat) : x <<< 24 = x * 16777216 := by rw [Nat.shiftLeft_eq]
theorem shl32 (x : Nat) : x <<< 32 = x * 4294967296 := by rw [Nat.shiftLeft_eq]
theorem shl40 (x : Nat) : x <<< 40 = x * 1099511627776 := by rw [Nat.shiftLeft_eq]

theorem shr1 (x : Nat) : x >>> 1 = x / 2 := by rw [Nat.shiftRight_eq_div_pow]
theorem shr2 (x : Nat) : x >>> 2 = x / 4 := by rw [Nat.shiftRight_eq_div_pow]
theorem shr3 (x : Nat) : x >>> 3 = x / 8 := by rw [Nat.shiftRight_eq_div_pow]
theorem shr4 (x : Nat) : x >>> 4 = x / 16 := by rw [Nat.shiftRight_eq_div_pow]
theorem shr5 (x : Nat) : x >>> 5 = x / 32 := by rw [Nat.shiftRight_eq_div_pow]
theorem shr6 (x : Nat) : x >>> 6 = x / 64 := by rw [Nat.shiftRight_eq_div_pow]
theorem shr7 (x : Nat) : x >>> 7 = x / 128 := by rw [Nat.shiftRight_eq_div_pow]
theorem shr8 (x : Nat) : x >>> 8 = x / 256 := by rw [Nat.shiftRight_eq_div_pow]
theorem shr16 (x : Nat) : x >>> 16 = x / 65536 := by rw [Nat.shiftRight_eq_div_pow]
theorem shr24 (x : Nat) : x >>> 24 = x / 16777216 := by rw [Nat.shiftRight_eq_div_pow]
theorem shr32 (x : Nat) : x >>> 32 = x / 4294967296 := by rw [Nat.shiftRight_eq_div_pow]
theorem shr40 (x : Nat) : x >>> 40 = x / 1099511627776 := by rw [Nat.shiftRight_eq_div_pow]

theorem lorD2 (a b : Nat) (ha : a % 2 = 0) (hb : b < 2) : a ||| b = a + b :=
  lor_eq_addP 1 a b ha hb

theorem lorD4 (a b : Nat) (ha : a % 4 = 0) (hb : b < 4) : a ||| b = a + b :=
  lor_eq_addP 2 a b ha hb

theorem lorD8 (a b : Nat) (ha : a % 8 = 0) (hb : b < 8) : a ||| b = a + b :=
  lor_eq_addP 3 a b ha hb

theorem lorD16 (a b : Nat) (ha : a % 16 = 0) (hb : b < 16) : a ||| b = a + b :=
  lor_eq_addP 4 a b ha hb

theorem lorD32 (a b : Nat) (ha : a % 32 = 0) (hb : b < 32) : a ||| b = a + b :=
  lor_eq_addP 5 a b ha hb

theorem lorD64 (a b : Nat) (ha : a % 64 = 0) (hb : b < 64) : a ||| b = a + b :=
  lor_eq_addP 6 a b ha hb

theorem lorD128 (a b : Nat) (ha : a % 128 = 0) (hb : b < 128) : a ||| b = a + b :=
  lor_eq_addP 7 a b ha hb

theorem lorD256 (a b : Nat) (ha : a % 256 = 0) (hb : b < 256) : a ||| b = a + b :=
  lor_eq_addP 8 a b ha hb

theorem lorD4096 (a b : Nat) (ha : a % 4096 = 0) (hb : b < 4096) : a ||| b = a + b :=
  lor_eq_addP 12 a b ha hb

theorem lorD65536 (a b : Nat) (ha : a % 65536 = 0) (hb : b < 65536) : a ||| b = a + b :=
  lor_eq_addP 16 a b ha hb

theorem lorD2p24 (a b : Nat) (ha : a % 16777216 = 0) (hb : b < 16777216) :
    a ||| b = a + b :=
  lor_eq_addP 24 a b ha hb

theorem lorD2p32 (a b : Nat) (ha : a % 4294967296 = 0) (hb : b < 4294967296) :
    a ||| b = a + b :=
  lor_eq_addP 32 a b ha hb

theorem lorD2p40 (a b : Nat) (ha : a % 1099511627776 = 0) (hb : b < 1099511627776) :
    a ||| b = a + b :=
  lor_eq_addP 40 a b ha hb

theorem dovi_roundTrip (b : DOVIDecoderConfigurationRecord) (h : b.FieldsValid) :
    DOVIDecoderConfigurationRecord.RecordRead b.RecordWrite = .ok (b, []) := by
  obtain ⟨vM, vm, p, l, rpu, el, bl, cid⟩ := b
  simp only [DOVIDecoderConfigurationRecord.FieldsValid] at h
  obtain ⟨h1, h2, h3, h4, h5⟩ := h
  simp only [DOVIDecoderConfigurationRecord.RecordWrite,
    DOVIDecoderConfigurationRecord.RecordRead]
  rw [dovi_write_t3 l h4 rpu el bl]
  rw [readBytes_exact _ (by simp), cbind_ok]
  simp only [byteGet, List.cons_append, List.nil_append, List.getD_cons_zero,
    List.getD_cons_succ]
  have hf4 : (if rpu = true then 4 else 0) ≤ 4 := by cases rpu <;> simp
  have hf2 : (if el = true then 2 else 0) ≤ 2 := by cases el <;> simp
  have hf1 : (if bl = true then 1 else 0) ≤ 1 := by cases bl <;> simp
  have hb2 : p <<< 1 % 256 ||| l >>> 5 &&& 1 = 2 * p + l / 32 := by
    rw [shl1, shr5, and1_flag, lorD2 _ _ (by omega) (by omega)]
    omega
  rw [hb2]
  have hYm : (((8 * (l % 32) + if rpu = true then 4 else 0) + if el = true then 2 else 0)
        + if bl = true then 1 else 0) % 256
      = 8 * (l % 32) + ((if rpu = true then 4 else 0) + (if el = true then 2 else 0)
        + (if bl = true then 1 else 0)) := by
    omega
  simp only [hYm]
  rw [and248_eq _ _ (by omega) (by omega)]
  simp only [Except.ok.injEq, Prod.mk.injEq, DOVIDecoderConfigurationRecord.mk.injEq]
  refine ⟨⟨by omega, by omega, ?_, ?_, ?_, ?_, ?_, ?_⟩, trivial⟩
  · rw [shr1]
    omega
  · rw [and1_flag, shl5, shr3, lorD32 _ _ (by omega) (by omega)]
    omega
  · simp only [and4_flag]
    cases rpu <;> cases el <;> cases bl <;> simp <;> omega
  · simp only [and2_flag]
    cases rpu <;> cases el <;> cases bl <;> simp <;> omega
  · simp only [and1_flag]
    cases rpu <;> cases el <;> cases bl <;> simp <;> omega
  · rw [shl4, shr4]
    omega

theorem lpBytes_length (p : List Nat) : (lpBytes p).length = 2 + p.length := by
  simp [lpBytes]
  omega

theorem flatten_lp_length (L : List (List Nat)) :
    ((L.map lpBytes).flatten).length = (L.map (fun p => 2 + p.length)).sum := by
  induction L with
  | nil => simp
  | cons x L ih =>
    simp [lpBytes, ih]
    omega

theorem readN_flatten_nil {α : Type} {f : List Nat → Except CodecErr (α × List Nat)}
    {enc : α → List Nat} (L : List α)
    (hf : ∀ x ∈ L, ∀ r, f (enc x ++ r) = .ok (x, r)) :
    readN f L.length (L.map enc).flatten = .ok (L, []) := by
  have := readN_flatten L [] hf
  simpa using this

theorem avc_roundTrip_ext (b : AVCDecoderConfigurationRecord)
    (h : b.FieldsValid)
    (hc : (b.AVCProfileIndication == 100 || b.AVCProfileIndication == 110
        || b.AVCProfileIndication == 122 || b.AVCProfileIndication == 144) = true) :
    AVCDecoderConfigurationRecord.RecordRead b.RecordWrite = .ok (b, []) := by
  obtain ⟨v, pf, pc, lv, lsm, spss, ppss, cf, bdl, bdc, exts⟩ := b
  simp only [AVCDecoderConfigurationRecord.FieldsValid] at h
  obtain ⟨h1, h2, h3, h4, h5, h6, h7, h8, h9, h10, h11, h12, h13, h14⟩ := h
  simp only at hc
  simp only [AVCDecoderConfigurationRecord.RecordWrite,
    AVCDecoderConfigurationRecord.RecordRead, hc, if_true]
  simp only [List.append_assoc]
  rw [readBytes_append _ _ (by simp), cbind_ok]
  simp only [byteGet, List.getD_cons_zero, List.getD_cons_succ]
  have hl1 : spss.length % 256 = spss.length := by omega
  rw [hl1]
  have h5b : spss.length ||| 224 = 224 + spss.length := by
    rw [Nat.lor_comm, lorD32 _ _ (by omega) (by omega)]
  have hpf : pf % 256 % 256 = pf := by omega
  rw [hpf]
  have hcnt : (spss.length ||| 224) % 256 % 256 &&& 31 = spss.length := by
    rw [h5b, and31_eq]
    omega
  rw [hcnt]
  rw [readN_flatten spss _ (fun x hx r => readLP_lpBytes x (h7 x hx) r), cbind_ok]
  dsimp only
  rw [readBytes_append _ _ (by simp), cbind_ok]
  dsimp only
  simp only [byteGet, List.getD_cons_zero, List.getD_cons_succ]
  have hpps : ppss.length % 256 % 256 = ppss.length := by omega
  rw [hpps]
  rw [readN_flatten ppss _ (fun x hx r => readLP_lpBytes x (h9 x hx) r), cbind_ok]
  dsimp only
  rw [hc, if_pos rfl]
  rw [readBytes_append _ _ (by simp), cbind_ok]
  dsimp only
  simp only [byteGet, List.getD_cons_zero, List.getD_cons_succ]
  have hcf : (cf ||| 252) % 256 % 256 &&& 3 = cf := by
    rw [Nat.lor_comm, lorD4 _ _ (by omega) (by omega), and3_eq]
    omega
  have hbdl : (bdl ||| 248) % 256 % 256 &&& 7 = bdl := by
    rw [Nat.lor_comm, lorD8 _ _ (by omega) (by omega), and7_eq]
    omega
  have hbdc : (bdc ||| 248) % 256 % 256 &&& 7 = bdc := by
    rw [Nat.lor_comm, lorD8 _ _ (by omega) (by omega), and7_eq]
    omega
  have hext : exts.length % 256 % 256 = exts.length := by omega
  rw [hcf, hbdl, hbdc, hext]
  rw [readN_flatten_nil exts (fun x hx r => readLP_lpBytes x (h14 x hx) r), cbind_ok]
  dsimp only
  have hv : v % 256 % 256 = v := by omega
  have hpc : pc % 256 % 256 = pc := by omega
  have hlv : lv % 256 % 256 = lv := by omega
  have hlsm : (lsm ||| 252) % 256 % 256 &&& 3 = lsm := by
    rw [Nat.lor_comm, lorD4 _ _ (by omega) (by omega), and3_eq]
    omega
  rw [hv, hpc, hlv, hlsm]

theorem avc_roundTrip_noExt (b : AVCDecoderConfigurationRecord)
    (h : b.FieldsValid)
    (hc : (b.AVCProfileIndication == 100 || b.AVCProfileIndication == 110
        || b.AVCProfileIndication == 122 || b.AVCProfileIndication == 144) = false) :
    AVCDecoderConfigurationRecord.RecordRead b.RecordWrite
      = .ok ({ b with
               ChromaFormat := 0
               BitDepthLumaMinus8 := 0
               BitDepthChromaMinus8 := 0
               SequenceParameterSetExts := [] }, []) := by
  obtain ⟨v, pf, pc, lv, lsm, spss, ppss, cf, bdl, bdc, exts⟩ := b
  simp only [AVCDecoderConfigurationRecord.FieldsValid] at h
  obtain ⟨h1, h2, h3, h4, h5, h6, h7, h8, h9, h10, h11, h12, h13, h14⟩ := h
  simp only at hc
  simp only [AVCDecoderConfigurationRecord.RecordWrite,
    AVCDecoderConfigurationRecord.RecordRead, hc, Bool.false_eq_true, if_false]
  simp only [List.append_assoc, List.append_nil]
  rw [readBytes_append _ _ (by simp), cbind_ok]
  simp only [byteGet, List.getD_cons_zero, List.getD_cons_succ]
  have hl1 : spss.length % 256 = spss.length := by omega
  rw [hl1]
  have h5b : spss.length ||| 224 = 224 + spss.length := by
    rw [Nat.lor_comm, lorD32 _ _ (by omega) (by omega)]
  have hpf : pf % 256 % 256 = pf := by omega
  rw [hpf]
  have hcnt : (spss.length ||| 224) % 256 % 256 &&& 31 = spss.length := by
    rw [h5b, and31_eq]
    omega
  rw [hcnt]
  rw [readN_flatten spss _ (fun x hx r => readLP_lpBytes x (h7 x hx) r), cbind_ok]
  dsimp only
  rw [readBytes_append _ _ (by simp), cbind_ok]
  dsimp only
  simp only [byteGet, List.getD_cons_zero, List.getD_cons_succ]
  have hpps : ppss.length % 256 % 256 = ppss.length := by omega
  rw [hpps]
  rw [readN_flatten_nil ppss (fun x hx r => readLP_lpBytes x (h9 x hx) r), cbind_ok]
  dsimp only
  rw [hc, if_neg (by simp)]
  have hv : v % 256 % 256 = v := by omega
  have hpc : pc % 256 % 256 = pc := by omega
  have hlv : lv % 256 % 256 = lv := by omega
  have hlsm : (lsm ||| 252) % 256 % 256 &&& 3 = lsm := by
    rw [Nat.lor_comm, lorD4 _ _ (by omega) (by omega), and3_eq]
    omega
  rw [hv, hpc, hlv, hlsm]

theorem hevcReadArray_writeBytes (a : NaluArray) (h : a.FieldsValid) (rest : List Nat) :
    hevcReadArray (NaluArray.writeBytes a ++ rest) = .ok (a, rest) := by
  obtain ⟨comp, t, nalus⟩ := a
  simp only [NaluArray.FieldsValid] at h
  obtain ⟨h1, h2, h3⟩ := h
  simp only [NaluArray.writeBytes, hevcReadArray]
  simp only [List.append_assoc]
  rw [readBytes_append _ _ (by simp), cbind_ok]
  simp only [byteGet, List.getD_cons_zero, List.getD_cons_succ]
  have hx : ((t &&& 63) ||| if comp = true then 128 else 0) % 256 % 256
      = t + (if comp = true then 128 else 0) := by
    rw [and63_eq]
    cases comp <;> simp
    · omega
    · rw [Nat.lor_comm, lorD128 _ _ (by omega) (by omega)]
      omega
  simp only [hx]
  have hcnt : ((nalus.length >>> 8) % 256 % 256 &&& 15) <<< 8 ||| nalus.length % 256 % 256
      = nalus.length := by
    rw [shr8, and15_eq, shl8, lorD256 _ _ (by omega) (by omega)]
    omega
  rw [hcnt]
  rw [readN_flatten nalus _ (fun x hx r => readLP_lpBytes x (h3 x hx) r), cbind_ok]
  dsimp only
  have hcm : decide (0 < (t + if comp = true then 128 else 0) >>> 7) = comp := by
    rw [shr7]
    cases comp <;> simp <;> omega
  have htp : (t + if comp = true then 128 else 0) &&& 63 = t := by
    rw [and63_eq]
    cases comp <;> simp <;> omega
  rw [hcm, htp]

theorem hevc_roundTrip (b : HEVCDecoderConfigurationRecord) (h : b.FieldsValid)
    (ht : b.GeneralTierFlag = false) (hp3 : b.ParallelismType = 3)
    (hc3 : b.ChromaFormatIndicator = 3) (hl7 : b.BitDepthLumaMinus8 = 7)
    (hb7 : b.BitDepthChromaMinus8 = 7) :
    HEVCDecoderConfigurationRecord.RecordRead b.RecordWrite = .ok (b, []) := by
  obtain ⟨ver, ps, tier, pi, pcf, pcif, lvl, mss, par, chf, bdl, bdc, afr, cfr,
    ntl, tin, lsm, arrays⟩ := b
  simp only [HEVCDecoderConfigurationRecord.FieldsValid] at h
  obtain ⟨h1, h2, h3, h4, h5, h6, h7, h8, h9, h10, h11, h12, h13, h14, h15, h16,
    h17, h18⟩ := h
  subst ht hp3 hc3 hl7 hb7
  simp only [HEVCDecoderConfigurationRecord.RecordWrite,
    HEVCDecoderConfigurationRecord.RecordRead, hevcParseHeader]
  rw [readBytes_append _ _ (by simp), cbind_ok]
  simp only [byteGet, List.getD_cons_zero, List.getD_cons_succ]
  have hB1 : (ps <<< 6 % 256 ||| pi &&& 31 ||| if false = true then 16 else 0) % 256 % 256
      = ps * 64 + pi := by
    have hif : (if false = true then 16 else 0) = 0 := rfl
    rw [hif, Nat.or_zero, shl6, and31_eq]
    have e1 : ps * 64 % 256 = ps * 64 := by omega
    rw [e1, lorD64 _ _ (by omega) (by omega)]
    omega
  simp only [hB1]
  have hGPS : (ps * 64 + pi) >>> 6 = ps := by
    rw [shr6]
    omega
  have hTF : (ps * 64 + pi) >>> 5 &&& 1 = 0 := by
    rw [shr5, and1_flag]
    omega
  have hGPI : (ps * 64 + pi) &&& 31 = pi := by
    rw [and31_eq]
    omega
  simp only [hGPS, hTF, hGPI]
  have hPCF : (pcf >>> 24 % 256 % 256) <<< 24 ||| (pcf >>> 16 % 256 % 256) <<< 16 |||
      (pcf >>> 8 % 256 % 256) <<< 8 ||| pcf % 256 % 256 = pcf := by
    simp only [shr24, shr16, shr8, shl24, shl16, shl8]
    rw [lorD2p24 (pcf / 16777216 % 256 % 256 * 16777216)
      (pcf / 65536 % 256 % 256 * 65536) (by omega) (by omega)]
    rw [lorD65536 (pcf / 16777216 % 256 % 256 * 16777216 + pcf / 65536 % 256 % 256 * 65536)
      (pcf / 256 % 256 % 256 * 256) (by omega) (by omega)]
    rw [lorD256 _ _ (by omega) (by omega)]
    omega
  have hPCIF : (pcif >>> 32 >>> 8 % 256 % 256) <<< 40 ||| (pcif >>> 32 % 256 % 256) <<< 32 |||
      (pcif >>> 24 % 256 % 256) <<< 24 ||| (pcif >>> 16 % 256 % 256) <<< 16 |||
      (pcif >>> 8 % 256 % 256) <<< 8 ||| pcif % 256 % 256 = pcif := by
    simp only [shr32, shr8, shr24, shr16, shl40, shl32, shl24, shl16, shl8]
    rw [lorD2p40 (pcif / 4294967296 / 256 % 256 % 256 * 1099511627776)
      (pcif / 4294967296 % 256 % 256 * 4294967296) (by omega) (by omega)]
    rw [lorD2p32 (pcif / 4294967296 / 256 % 256 % 256 * 1099511627776
        + pcif / 4294967296 % 256 % 256 * 4294967296)
      (pcif / 16777216 % 256 % 256 * 16777216) (by omega) (by omega)]
    rw [lorD2p24 (pcif / 4294967296 / 256 % 256 % 256 * 1099511627776
        + pcif / 4294967296 % 256 % 256 * 4294967296 + pcif / 16777216 % 256 % 256 * 16777216)
      (pcif / 65536 % 256 % 256 * 65536) (by omega) (by omega)]
    rw [lorD65536 (pcif / 4294967296 / 256 % 256 % 256 * 1099511627776
        + pcif / 4294967296 % 256 % 256 * 4294967296 + pcif / 16777216 % 256 % 256 * 16777216
        + pcif / 65536 % 256 % 256 * 65536)
      (pcif / 256 % 256 % 256 * 256) (by omega) (by omega)]
    rw [lorD256 _ _ (by omega) (by omega)]
    omega
  simp only [hPCF, hPCIF]
  have hm : mss ||| 15 <<< 12 = 61440 + mss := by
    rw [shl12, Nat.lor_comm, lorD4096 _ _ (by omega) (by omega)]
  simp only [hm]
  have hMSS : ((61440 + mss) >>> 8 % 256 % 256 &&& 15) <<< 8 ||| (61440 + mss) % 256 % 256
      = mss := by
    rw [shr8, and15_eq, shl8, lorD256 _ _ (by omega) (by omega)]
    omega
  have hAFR : (afr >>> 8 % 256 % 256) <<< 8 ||| afr % 256 % 256 = afr := by
    rw [shr8, shl8, lorD256 _ _ (by omega) (by omega)]
    omega
  simp only [hMSS, hAFR]
  have hB21 : (cfr <<< 6 % 256 ||| (ntl &&& 7) <<< 3 ||| (tin &&& 1) <<< 2 ||| lsm &&& 3)
      % 256 % 256 = cfr * 64 + ntl * 8 + tin * 4 + lsm := by
    rw [shl6, and7_eq, shl3, and1_flag, shl2, and3_eq]
    have e1 : cfr * 64 % 256 = cfr * 64 := by omega
    rw [e1]
    rw [lorD64 (cfr * 64) (ntl % 8 * 8) (by omega) (by omega)]
    rw [lorD8 (cfr * 64 + ntl % 8 * 8) (tin % 2 * 4) (by omega) (by omega)]
    rw [lorD4 _ _ (by omega) (by omega)]
    omega
  simp only [hB21]
  have hCFR : (cfr * 64 + ntl * 8 + tin * 4 + lsm) >>> 6 = cfr := by
    rw [shr6]
    omega
  have hNTL : (cfr * 64 + ntl * 8 + tin * 4 + lsm) >>> 3 &&& 7 = ntl := by
    rw [shr3, and7_eq]
    omega
  have hTIN : (cfr * 64 + ntl * 8 + tin * 4 + lsm) >>> 2 &&& 1 = tin := by
    rw [shr2, and1_flag]
    omega
  have hLSM : (cfr * 64 + ntl * 8 + tin * 4 + lsm) &&& 3 = lsm := by
    rw [and3_eq]
    omega
  simp only [hCFR, hNTL, hTIN, hLSM]
  have hAC : arrays.length % 256 % 256 = arrays.length := by omega
  rw [hAC]
  rw [readN_flatten_nil arrays (fun a ha r => hevcReadArray_writeBytes a (h18 a ha) r),
    cbind_ok]
  dsimp only
  have hver : ver % 256 % 256 = ver := by omega
  have hlvl : lvl % 256 % 256 = lvl := by omega
  rw [hver, hlvl]
  rfl

theorem lp_sum (ns : List (List Nat)) :
    (ns.map (fun n => 2 + n.length)).sum = 2 * ns.length + (ns.map List.length).sum := by
  induction ns with
  | nil => simp
  | cons x l ih =>
    simp [ih]
    omega

theorem dovi_size_eq_length (b : DOVIDecoderConfigurationRecord) :
    b.RecordSize = b.RecordWrite.length := rfl

theorem avcWrite_length (b : AVCDecoderConfigurationRecord) :
    b.RecordWrite.length = 7 + (b.SequenceParameterSets.map (fun p => 2 + p.length)).sum
      + (b.PictureParameterSets.map (fun p => 2 + p.length)).sum
      + (if b.AVCProfileIndication == 100 || b.AVCProfileIndication == 110
            || b.AVCProfileIndication == 122 || b.AVCProfileIndication == 144
         then 4 + (b.SequenceParameterSetExts.map (fun p => 2 + p.length)).sum
         else 0) := by
  cases hc : (b.AVCProfileIndication == 100 || b.AVCProfileIndication == 110
      || b.AVCProfileIndication == 122 || b.AVCProfileIndication == 144) <;>
    simp [AVCDecoderConfigurationRecord.RecordWrite, flatten_lp_length, hc,
      Function.comp_def, lpBytes_length] <;>
    omega

theorem avc_size_eq_length (b : AVCDecoderConfigurationRecord)
    (h : b.RecordWrite.length < 2 ^ 32) : b.RecordSize = b.RecordWrite.length := by
  have hw := avcWrite_length b
  rw [AVCDecoderConfigurationRecord.RecordSize]
  omega

theorem hevcArrayWrite_length (a : NaluArray) :
    (NaluArray.writeBytes a).length = 3 + (a.NALUs.map (fun n => 2 + n.length)).sum := by
  simp [NaluArray.writeBytes, flatten_lp_length, Function.comp_def, lpBytes_length]
  omega

theorem hevcWrite_length (b : HEVCDecoderConfigurationRecord) :
    b.RecordWrite.length
      = 23 + (b.NaluArrays.map (fun a => 3 + (a.NALUs.map (fun n => 2 + n.length)).sum)).sum := by
  simp [HEVCDecoderConfigurationRecord.RecordWrite, Function.comp_def, hevcArrayWrite_length]
  omega

theorem hevc_sum_struct (L : List NaluArray) :
    (L.map (fun a => 3 + (a.NALUs.map (fun n => 2 + n.length)).sum)).sum
      = 3 * L.length + (L.map (fun a => (a.NALUs.map List.length).sum)).sum
        + 2 * (L.map (fun a => a.NALUs.length)).sum := by
  induction L with
  | nil => simp
  | cons x l ih =>
    simp only [List.map_cons, List.sum_cons, List.length_cons]
    rw [ih, lp_sum]
    omega

theorem hevc_size_eq_length (b : HEVCDecoderConfigurationRecord)
    (h : b.RecordWrite.length < 2 ^ 32) : b.RecordSize = b.RecordWrite.length := by
  have hw := hevcWrite_length b
  have hs := hevc_sum_struct b.NaluArrays
  rw [HEVCDecoderConfigurationRecord.RecordSize]
  omega

theorem byteGet_lt (t : List Nat) (i : Nat) : byteGet t i < 256 :=
  Nat.mod_lt _ (by norm_num)

theorem hevcReadArray_bounds {s s' : List Nat} {a : NaluArray}
    (h : hevcReadArray s = .ok (a, s')) :
    a.NALUnitType < 64 ∧ a.NALUs.length < 4096 := by
  rw [hevcReadArray] at h
  cases h3 : readBytes 3 s with
  | error e => rw [h3, cbind_error] at h; cases h
  | ok p =>
    rw [h3, cbind_ok] at h
    obtain ⟨t, s1⟩ := p
    dsimp only at h
    cases hn : readN readLP (((byteGet t 1 &&& 15) <<< 8) ||| byteGet t 2) s1 with
    | error e => rw [hn, cbind_error] at h; cases h
    | ok q =>
      rw [hn, cbind_ok] at h
      obtain ⟨ns, s2⟩ := q
      dsimp only at h
      cases h
      dsimp only
      constructor
      · have := byteGet_lt t 0
        rw [and63_eq]
        omega
      · have hlen := readN_length hn
        simp only [hlen]
        have h1 := byteGet_lt t 1
        have h2 := byteGet_lt t 2
        have hhi : (byteGet t 1 &&& 15) <<< 8 < 4096 := by
          rw [and15_eq, shl8]
          omega
        calc ((byteGet t 1 &&& 15) <<< 8) ||| byteGet t 2 < 2 ^ 12 :=
              Nat.or_lt_two_pow (by norm_num [hhi]) (by omega)
          _ = 4096 := by norm_num

theorem hevc_read_bounds {bs rest : List Nat} {r : HEVCDecoderConfigurationRecord}
    (h : HEVCDecoderConfigurationRecord.RecordRead bs = .ok (r, rest)) :
    r.GeneralProfileSpace < 4 ∧ r.GenertalProfileIndicator < 32 ∧
    r.GeneralConstraintIndicatorFlags < 2 ^ 48 ∧
    r.MinSpatialSegmentationIndicator < 4096 ∧ r.ParallelismType < 4 ∧
    r.ChromaFormatIndicator < 4 ∧ r.BitDepthLumaMinus8 < 8 ∧
    r.BitDepthChromaMinus8 < 8 ∧ r.LengthSizeMinusOne < 4 ∧
    ∀ a ∈ r.NaluArrays, a.NALUs.length < 4096 := by
  rw [HEVCDecoderConfigurationRecord.RecordRead] at h
  cases h23 : readBytes 23 bs with
  | error e => rw [h23, cbind_error] at h; cases h
  | ok p =>
    rw [h23, cbind_ok] at h
    obtain ⟨t, s1⟩ := p
    dsimp only at h
    cases hn : readN hevcReadArray (byteGet t 22) s1 with
    | error e => rw [hn, cbind_error] at h; cases h
    | ok q =>
      rw [hn, cbind_ok] at h
      obtain ⟨as, s2⟩ := q
      dsimp only at h
      cases h
      simp only [hevcParseHeader]
      refine ⟨?_, ?_, ?_, ?_, ?_, ?_, ?_, ?_, ?_, ?_⟩
      · have := byteGet_lt t 1
        rw [shr6]
        omega
      · have := byteGet_lt t 1
        rw [and31_eq]
        omega
      · have h6 := byteGet_lt t 6
        have h7 := byteGet_lt t 7
        have h8 := byteGet_lt t 8
        have h9 := byteGet_lt t 9
        have h10 := byteGet_lt t 10
        have h11 := byteGet_lt t 11
        refine Nat.or_lt_two_pow (Nat.or_lt_two_pow (Nat.or_lt_two_pow
          (Nat.or_lt_two_pow (Nat.or_lt_two_pow ?_ ?_) ?_) ?_) ?_) ?_
        · rw [shl40]
          norm_num
          omega
        · rw [shl32]
          norm_num
          omega
        · rw [shl24]
          norm_num
          omega
        · rw [shl16]
          norm_num
          omega
        · rw [shl8]
          norm_num
          omega
        · norm_num
          omega
      · have h13 := byteGet_lt t 13
        have h14 := byteGet_lt t 14
        have hhi : (byteGet t 13 &&& 15) <<< 8 < 4096 := by
          rw [and15_eq, shl8]
          omega
        calc ((byteGet t 13 &&& 15) <<< 8) ||| byteGet t 14 < 2 ^ 12 :=
              Nat.or_lt_two_pow (by norm_num [hhi]) (by omega)
          _ = 4096 := by norm_num
      · rw [and3_eq]
        omega
      · rw [and3_eq]
        omega
      · rw [and7_eq]
        omega
      · rw [and7_eq]
        omega
      · rw [and3_eq]
        omega
      · intro a ha
        obtain ⟨s3, s4, hf⟩ := readN_mem hn a ha
        exact (hevcReadArray_bounds hf).2

theorem avc_read_bounds {bs rest : List Nat} {r : AVCDecoderConfigurationRecord}
    (h : AVCDecoderConfigurationRecord.RecordRead bs = .ok (r, rest)) :
    r.LengthSizeMinusOne < 4 ∧ r.SequenceParameterSets.length ≤ 31 ∧
    r.ChromaFormat < 4 ∧ r.BitDepthLumaMinus8 < 8 ∧ r.BitDepthChromaMinus8 < 8 := by
  rw [AVCDecoderConfigurationRecord.RecordRead] at h
  cases h6 : readBytes 6 bs with
  | error e => rw [h6, cbind_error] at h; cases h
  | ok p =>
    rw [h6, cbind_ok] at h
    obtain ⟨t, s1⟩ := p
    dsimp only at h
    cases hsps : readN readLP (byteGet t 5 &&& 31) s1 with
    | error e => rw [hsps, cbind_error] at h; cases h
    | ok q =>
      rw [hsps, cbind_ok] at h
      obtain ⟨spss, s2⟩ := q
      dsimp only at h
      cases h1 : readBytes 1 s2 with
      | error e => rw [h1, cbind_error] at h; cases h
      | ok c =>
        rw [h1, cbind_ok] at h
        obtain ⟨cb, s3⟩ := c
        dsimp only at h
        cases hpps : readN readLP (byteGet cb 0) s3 with
        | error e => rw [hpps, cbind_error] at h; cases h
        | ok w =>
          rw [hpps, cbind_ok] at h
          obtain ⟨ppss, s4⟩ := w
          dsimp only at h
          have hspslen : spss.length ≤ 31 := by
            have := readN_length hsps
            have h5 := byteGet_lt t 5
            rw [and31_eq] at this
            omega
          split at h
          · cases h4 : readBytes 4 s4 with
            | error e => rw [h4, cbind_error] at h; cases h
            | ok u =>
              rw [h4, cbind_ok] at h
              obtain ⟨e4, s5⟩ := u
              dsimp only at h
              cases hext : readN readLP (byteGet e4 3) s5 with
              | error e => rw [hext, cbind_error] at h; cases h
              | ok v =>
                rw [hext, cbind_ok] at h
                obtain ⟨exts, s6⟩ := v
                dsimp only at h
                cases h
                dsimp only
                refine ⟨?_, hspslen, ?_, ?_, ?_⟩
                · rw [and3_eq]
                  omega
                · rw [and3_eq]
                  omega
                · rw [and7_eq]
                  omega
                · rw [and7_eq]
                  omega
          · cases h
            dsimp only
            exact ⟨by rw [and3_eq]; omega, hspslen, by omega, by omega, by omega⟩

/-! ## Claim theorems -/

/-- C1: the claim `decode(encode(r)) == r` for records within valid field
ranges fails on the HEVC codec: encoding the all-zero HEVC record and
decoding the result yields parallelism type 3, chroma format 3 and bit
depths 7 instead of 0, and a record with the tier flag set decodes with
the flag cleared and bit 4 of the profile indicator set instead. -/
theorem hevc_encode_decode_not_id :
    HEVCDecoderConfigurationRecord.RecordRead
        (HEVCDecoderConfigurationRecord.RecordWrite hevcZeroRec)
      = .ok ({ hevcZeroRec with
               ParallelismType := 3
               ChromaFormatIndicator := 3
               BitDepthLumaMinus8 := 7
               BitDepthChromaMinus8 := 7 }, [])
    ∧ HEVCDecoderConfigurationRecord.RecordRead
        (HEVCDecoderConfigurationRecord.RecordWrite hevcZeroRec) ≠ .ok (hevcZeroRec, [])
    ∧ HEVCDecoderConfigurationRecord.RecordRead
        (HEVCDecoderConfigurationRecord.RecordWrite hevcTierRec)
      = .ok ({ hevcTierRec with
               GeneralTierFlag := false
               GenertalProfileIndicator := 16 }, []) :=
  ⟨by decide, by decide, by decide⟩

/-- C2: HEVC encode does write the all-ones pattern into the 4 reserved
bits adjacent to min-spatial-segmentation (bytes 13-14 are `0xF0 0x00`),
but the parallelism-type, chroma-format and bit-depth bytes come out as
`0x3F 0x3F 0x1F 0x1F`: the reserved masks are OR-ed into the LOW bits,
so the reserved regions are not all-ones (mandated `0xFC 0xFC 0xF8 0xF8`
for zero fields) and the significant field bits are forced to all-ones
instead of the record's values (a record with fields 1/2/1/2 emits the
same four bytes). -/
theorem hevc_reserved_bits_miswritten :
    ((HEVCDecoderConfigurationRecord.RecordWrite hevcZeroRec).drop 13).take 6
      = [240, 0, 63, 63, 31, 31]
    ∧ ((HEVCDecoderConfigurationRecord.RecordWrite hevcZeroRec).drop 13).take 6
      ≠ [240, 0, 252, 252, 248, 248]
    ∧ ((HEVCDecoderConfigurationRecord.RecordWrite hevcBitsRec).drop 13).take 6
      = [240, 0, 63, 63, 31, 31] :=
  ⟨by decide, by decide, by decide⟩

/-- C3 (amended): `RecordSize` equals the number of bytes `RecordWrite`
emits whenever that byte count fits in the 32-bit unsigned accumulator
`RecordSize` uses; for Dolby Vision it holds unconditionally. -/
theorem size_eq_write_length :
    (∀ b : HEVCDecoderConfigurationRecord,
        b.RecordWrite.length < 2 ^ 32 → b.RecordSize = b.RecordWrite.length)
    ∧ (∀ b : AVCDecoderConfigurationRecord,
        b.RecordWrite.length < 2 ^ 32 → b.RecordSize = b.RecordWrite.length)
    ∧ (∀ b : DOVIDecoderConfigurationRecord, b.RecordSize = b.RecordWrite.length) :=
  ⟨fun b h => hevc_size_eq_length b h,
   fun b h => avc_size_eq_length b h,
   fun b => dovi_size_eq_length b⟩

/-- C3 witness: the size/length agreement evaluated at the concrete
scenario records of the spec. -/
theorem size_eq_write_length_witness :
    hevcScenarioA.RecordSize = hevcScenarioA.RecordWrite.length
    ∧ avcBaseline.RecordSize = avcBaseline.RecordWrite.length
    ∧ doviScenarioB.RecordSize = doviScenarioB.RecordWrite.length :=
  ⟨size_eq_write_length.1 hevcScenarioA (by decide),
   size_eq_write_length.2.1 avcBaseline (by decide),
   size_eq_write_length.2.2 doviScenarioB⟩

/-- C3 counterexample: for the record holding one NAL unit of 2^32
bytes, `RecordSize` wraps modulo 2^32 (returning 28) while `RecordWrite`
emits 2^32 + 28 bytes, so the claim as stated (for every record) is
false. -/
theorem size_neq_write_length_overflow :
    HEVCDecoderConfigurationRecord.RecordSize hevcHuge
      ≠ (HEVCDecoderConfigurationRecord.RecordWrite hevcHuge).length := by
  have harr : hevcHuge.NaluArrays = [hevcHugeArr] := rfl
  have hnal : hevcHugeArr.NALUs = [List.replicate (2 ^ 32) 0] := rfl
  have hw : (HEVCDecoderConfigurationRecord.RecordWrite hevcHuge).length
      = 2 ^ 32 + 28 := by
    rw [hevcWrite_length, harr]
    rw [List.map_cons, List.map_nil, List.sum_cons, List.sum_nil, hnal]
    rw [List.map_cons, List.map_nil, List.sum_cons, List.sum_nil, List.length_replicate]
    norm_num
  have hP : (List.map (fun a => (List.map List.length a.NALUs).sum) [hevcHugeArr]).sum
      = 2 ^ 32 := by
    rw [List.map_cons, List.map_nil, List.sum_cons, List.sum_nil, hnal]
    rw [List.map_cons, List.map_nil, List.sum_cons, List.sum_nil, List.length_replicate]
    norm_num
  have hC : (List.map (fun a => a.NALUs.length) [hevcHugeArr]).sum = 1 := by
    rw [List.map_cons, List.map_nil, List.sum_cons, List.sum_nil, hnal]
    rw [List.length_cons, List.length_nil]
    norm_num
  have hs : HEVCDecoderConfigurationRecord.RecordSize hevcHuge = 28 := by
    rw [HEVCDecoderConfigurationRecord.RecordSize, harr, hP, hC]
    norm_num
  rw [hs, hw]
  norm_num

/-- C5: calling the HEVC record builder with an empty SPS sequence hits
`spsNalus[0]` and faults with an index-out-of-range runtime panic — it
does not return a dedicated missing-parameter-set error (no such check
or error value exists in the code). -/
theorem builder_empty_sps_faults :
    ∀ (parseSPS : List Nat → Except ParseErr HEVCSPSInfo)
      (vpsNalus ppsNalus : List (List Nat)) (vc sc pc : Bool),
      CreateHEVCDecoderConfigurationRecord parseSPS vpsNalus [] ppsNalus vc sc pc
        = .fault :=
  fun _ _ _ _ _ _ => rfl

/-- C8: for the concrete scenario-A HEVC record, `RecordSize` is 73 as
the spec computes, but decoding the 73 bytes `RecordWrite` produces does
NOT reproduce every field: parallelism type, chroma format and the two
bit depths come back as 3, 3, 7, 7 instead of 0. -/
theorem hevc_scenarioA_size73_decode_mismatch :
    HEVCDecoderConfigurationRecord.RecordSize hevcScenarioA = 73
    ∧ HEVCDecoderConfigurationRecord.RecordRead
        (HEVCDecoderConfigurationRecord.RecordWrite hevcScenarioA)
      = .ok (hevcScenarioADecoded, [])
    ∧ HEVCDecoderConfigurationRecord.RecordRead
        (HEVCDecoderConfigurationRecord.RecordWrite hevcScenarioA)
      ≠ .ok (hevcScenarioA, []) :=
  ⟨by decide, by decide, by decide⟩

theorem hevcOver64k_writeBytes : NaluArray.writeBytes hevcOver64kArr
    = [161, 0, 1] ++ ([0, 0] ++ List.replicate 65536 0) := by
  rw [NaluArray.writeBytes]
  rw [show hevcOver64kArr.NALUs = [List.replicate 65536 0] from rfl]
  rw [List.map_cons, List.map_nil, List.flatten_cons, List.flatten_nil, List.append_nil]
  rw [lpBytes, List.length_replicate]
  rfl

theorem hevcMax64k_valid : hevcMax64k.FieldsValid := by
  refine ⟨?_, ?_, ?_, ?_, ?_, ?_, ?_, ?_, ?_, ?_, ?_, ?_, ?_, ?_, ?_, ?_, ?_, ?_⟩
  case _ => decide
  case _ => decide
  case _ => decide
  case _ => decide
  case _ => decide
  case _ => decide
  case _ => decide
  case _ => decide
  case _ => decide
  case _ => decide
  case _ => decide
  case _ => decide
  case _ => decide
  case _ => decide
  case _ => decide
  case _ => decide
  case _ => decide
  case _ =>
    intro a ha
    rw [show hevcMax64k.NaluArrays = [hevcMax64kArr] from rfl, List.mem_singleton] at ha
    subst ha
    refine ⟨by decide, by decide, ?_⟩
    intro n hn
    rw [show hevcMax64kArr.NALUs = [List.replicate 65535 7] from rfl,
      List.mem_singleton] at hn
    subst hn
    rw [List.length_replicate]
    omega

/-- C4: the claim that encode fails with FieldOverflow on out-of-range
values is false: no overflow check exists.  Encoding an HEVC record
holding a 65536-byte NAL unit succeeds and silently truncates the
16-bit length prefix to `0x00 0x00` (= 65536 mod 2^16) while still
writing all 65536 payload bytes; a NAL unit of exactly 65535 bytes does
round-trip exactly; and encoding an AVC record with 32 sequence
parameter sets silently writes a count byte of 0xE0, whose 5-bit count
field reads back as 0. -/
theorem encode_overflow_truncates :
    HEVCDecoderConfigurationRecord.RecordWrite hevcOver64k
      = hevcOver64kHdr ++ ([161, 0, 1] ++ ([0, 0] ++ List.replicate 65536 0))
    ∧ HEVCDecoderConfigurationRecord.RecordRead
        (HEVCDecoderConfigurationRecord.RecordWrite hevcMax64k) = .ok (hevcMax64k, [])
    ∧ (AVCDecoderConfigurationRecord.RecordWrite avcOverSPS).getD 5 0 = 224
    ∧ (AVCDecoderConfigurationRecord.RecordWrite avcOverSPS).getD 5 0 &&& 31 = 0 := by
  refine ⟨?_, ?_, by decide, by decide⟩
  · rw [HEVCDecoderConfigurationRecord.RecordWrite,
      show hevcOver64k.NaluArrays = [hevcOver64kArr] from rfl,
      List.map_cons, List.map_nil, List.flatten_cons, List.flatten_nil, List.append_nil,
      hevcOver64k_writeBytes]
    rfl
  · exact hevc_roundTrip hevcMax64k hevcMax64k_valid rfl rfl rfl rfl rfl

/-- C6: decoding a byte source that ends part-way through a declared
NAL-unit / parameter-set payload (payload shorter than its 16-bit
length prefix promises) fails with the `truncated` error and returns no
record, for both the HEVC and the AVC decoder. -/
theorem decode_truncated_midpayload :
    (∀ (h22 : List Nat) (L : Nat) (payload : List Nat),
        h22.length = 22 → L < 65536 → payload.length < L →
        HEVCDecoderConfigurationRecord.RecordRead
            (h22 ++ [1] ++ [0, 0, 1] ++ [L / 256, L % 256] ++ payload)
          = .error .truncated)
    ∧ (∀ (h5 : List Nat) (L : Nat) (payload : List Nat),
        h5.length = 5 → L < 65536 → payload.length < L →
        AVCDecoderConfigurationRecord.RecordRead
            (h5 ++ [1] ++ [L / 256, L % 256] ++ payload)
          = .error .truncated) := by
  constructor
  · intro h22 L payload hl hL hp
    rw [HEVCDecoderConfigurationRecord.RecordRead]
    rw [show h22 ++ [1] ++ [0, 0, 1] ++ [L / 256, L % 256] ++ payload
        = (h22 ++ [1]) ++ ([0, 0, 1] ++ ([L / 256, L % 256] ++ payload)) by
      simp [List.append_assoc]]
    rw [readBytes_append _ _ (by simp [hl]), cbind_ok]
    dsimp only
    have hbg : byteGet (h22 ++ [1]) 22 = 1 := by
      rw [byteGet, List.getD_append_right _ _ _ _ (by omega)]
      rw [hl]
      rfl
    rw [hbg]
    simp only [readN]
    rw [hevcReadArray]
    rw [readBytes_append [0, 0, 1] ([L / 256, L % 256] ++ payload) (by simp), cbind_ok]
    dsimp only
    rw [show ((byteGet [0, 0, 1] 1 &&& 15) <<< 8) ||| byteGet [0, 0, 1] 2 = 1 from rfl]
    simp only [readN]
    rw [readLP, readU16]
    rw [readBytes_append [L / 256, L % 256] payload (by simp), cbind_ok]
    dsimp only
    have hval : byteGet [L / 256, L % 256] 0 <<< 8 ||| byteGet [L / 256, L % 256] 1 = L := by
      simp only [byteGet, List.getD_cons_zero, List.getD_cons_succ]
      rw [shl8, lorD256 _ _ (by omega) (by omega)]
      omega
    rw [hval, cbind_ok]
    dsimp only
    rw [readBytes_short _ (by omega)]
    simp only [cbind_error]
  · intro h5 L payload hl hL hp
    rw [AVCDecoderConfigurationRecord.RecordRead]
    rw [show h5 ++ [1] ++ [L / 256, L % 256] ++ payload
        = (h5 ++ [1]) ++ ([L / 256, L % 256] ++ payload) by
      simp [List.append_assoc]]
    rw [readBytes_append _ _ (by simp [hl]), cbind_ok]
    dsimp only
    have hbg : byteGet (h5 ++ [1]) 5 &&& 31 = 1 := by
      rw [byteGet, List.getD_append_right _ _ _ _ (by omega), hl]
      rfl
    rw [hbg]
    simp only [readN]
    rw [readLP, readU16]
    rw [readBytes_append [L / 256, L % 256] payload (by simp), cbind_ok]
    dsimp only
    have hval : byteGet [L / 256, L % 256] 0 <<< 8 ||| byteGet [L / 256, L % 256] 1
        = L := by
      simp only [byteGet, List.getD_cons_zero, List.getD_cons_succ]
      rw [shl8, lorD256 _ _ (by omega) (by omega)]
      omega
    rw [hval, cbind_ok]
    dsimp only
    rw [readBytes_short _ (by omega)]
    simp only [cbind_error]

/-- C6 witness: concrete truncated decodes — a declared 5-byte payload
with only 3 bytes available fails with `truncated` for both codecs. -/
theorem decode_truncated_midpayload_witness :
    HEVCDecoderConfigurationRecord.RecordRead
        (List.replicate 22 0 ++ [1] ++ [0, 0, 1] ++ [0, 5] ++ [1, 2, 3])
      = .error .truncated
    ∧ AVCDecoderConfigurationRecord.RecordRead
        (List.replicate 5 0 ++ [1] ++ [0, 5] ++ [1, 2, 3])
      = .error .truncated :=
  ⟨decode_truncated_midpayload.1 (List.replicate 22 0) 5 [1, 2, 3]
      (by decide) (by decide) (by decide),
   decode_truncated_midpayload.2 (List.replicate 5 0) 5 [1, 2, 3]
      (by decide) (by decide) (by decide)⟩

theorem sum_lp_bound (L : List (List Nat)) (h : ∀ p ∈ L, p.length < 65536) :
    (L.map (fun p => 2 + p.length)).sum ≤ L.length * 65538 := by
  induction L with
  | nil => simp
  | cons x l ih =>
    simp only [List.map_cons, List.sum_cons, List.length_cons]
    have hx := h x (by simp)
    have hl := ih (fun p hp => h p (by simp [hp]))
    omega

theorem avcValid_write_lt (b : AVCDecoderConfigurationRecord) (h : b.FieldsValid) :
    b.RecordWrite.length < 2 ^ 32 := by
  obtain ⟨h1, h2, h3, h4, h5, h6, h7, h8, h9, h10, h11, h12, h13, h14⟩ := h
  have hw := avcWrite_length b
  have hs := sum_lp_bound _ h7
  have hp := sum_lp_bound _ h9
  have he := sum_lp_bound _ h14
  have hif : (if b.AVCProfileIndication == 100 || b.AVCProfileIndication == 110
        || b.AVCProfileIndication == 122 || b.AVCProfileIndication == 144
      then 4 + (b.SequenceParameterSetExts.map (fun p => 2 + p.length)).sum
      else 0) ≤ 4 + (b.SequenceParameterSetExts.map (fun p => 2 + p.length)).sum := by
    split
    · omega
    · omega
  omega

/-- C7: the AVC extension section is present on the wire iff the profile
indication is one of 100, 110, 122, 144, and size, encode and decode all
agree on this condition: for an extension profile the write emits 4
extra header bytes plus the SPS-extension array and decode reproduces
the record exactly; for any other profile (e.g. 66) the write emits zero
extension bytes and decode returns empty chroma/bit-depth/extension
fields. -/
theorem avc_ext_section_iff (b : AVCDecoderConfigurationRecord) (h : b.FieldsValid) :
    b.RecordSize = b.RecordWrite.length
    ∧ ((b.AVCProfileIndication = 100 ∨ b.AVCProfileIndication = 110
        ∨ b.AVCProfileIndication = 122 ∨ b.AVCProfileIndication = 144) →
        b.RecordWrite.length
          = 7 + (b.SequenceParameterSets.map (fun p => 2 + p.length)).sum
            + (b.PictureParameterSets.map (fun p => 2 + p.length)).sum
            + (4 + (b.SequenceParameterSetExts.map (fun p => 2 + p.length)).sum)
        ∧ AVCDecoderConfigurationRecord.RecordRead b.RecordWrite = .ok (b, []))
    ∧ (¬ (b.AVCProfileIndication = 100 ∨ b.AVCProfileIndication = 110
        ∨ b.AVCProfileIndication = 122 ∨ b.AVCProfileIndication = 144) →
        b.RecordWrite.length
          = 7 + (b.SequenceParameterSets.map (fun p => 2 + p.length)).sum
            + (b.PictureParameterSets.map (fun p => 2 + p.length)).sum
        ∧ AVCDecoderConfigurationRecord.RecordRead b.RecordWrite
            = .ok ({ b with
                     ChromaFormat := 0
                     BitDepthLumaMinus8 := 0
                     BitDepthChromaMinus8 := 0
                     SequenceParameterSetExts := [] }, [])) := by
  refine ⟨avc_size_eq_length b (avcValid_write_lt b h), ?_, ?_⟩
  · intro hc
    have hcb : (b.AVCProfileIndication == 100 || b.AVCProfileIndication == 110
        || b.AVCProfileIndication == 122 || b.AVCProfileIndication == 144) = true := by
      rcases hc with h' | h' | h' | h' <;> simp [h']
    exact ⟨by rw [avcWrite_length, hcb]; simp, avc_roundTrip_ext b h hcb⟩
  · intro hc
    have hcb : (b.AVCProfileIndication == 100 || b.AVCProfileIndication == 110
        || b.AVCProfileIndication == 122 || b.AVCProfileIndication == 144) = false := by
      cases hq : (b.AVCProfileIndication == 100 || b.AVCProfileIndication == 110
          || b.AVCProfileIndication == 122 || b.AVCProfileIndication == 144)
      · rfl
      · exfalso
        apply hc
        have := by simpa using hq
        tauto
    exact ⟨by rw [avcWrite_length, hcb]; simp, avc_roundTrip_noExt b h hcb⟩

/-- C7 witness: the high-profile record (profile 100, one SPS-extension)
round-trips with its extension section, and the baseline record
(profile 66) encodes without one and decodes with empty extension
fields. -/
theorem avc_ext_section_iff_witness :
    AVCDecoderConfigurationRecord.RecordRead avcHigh.RecordWrite = .ok (avcHigh, [])
    ∧ AVCDecoderConfigurationRecord.RecordRead avcBaseline.RecordWrite
        = .ok (avcBaseline, []) :=
  ⟨((avc_ext_section_iff avcHigh (by decide)).2.1 (Or.inl rfl)).2,
   ((avc_ext_section_iff avcBaseline (by decide)).2.2 (by decide)).2⟩

/-- C9: the concrete Dolby Vision scenario-B record has size 24, its 24
written bytes are `01 00 0A 1D 20` followed by 19 zero padding bytes,
decoding them reproduces all the semantic fields, and decode recovers
the same fields from any 24-byte source differing only in the reserved
padding bits (the low nibble of byte 4 and bytes 5-23). -/
theorem dovi_scenarioB_spec :
    DOVIDecoderConfigurationRecord.RecordSize doviScenarioB = 24
    ∧ DOVIDecoderConfigurationRecord.RecordWrite doviScenarioB
        = [1, 0, 10, 29, 32] ++ List.replicate 19 0
    ∧ DOVIDecoderConfigurationRecord.RecordRead
        (DOVIDecoderConfigurationRecord.RecordWrite doviScenarioB)
      = .ok (doviScenarioB, [])
    ∧ ∀ (lowNib : Nat) (rest : List Nat), lowNib < 16 → rest.length = 19 →
        DOVIDecoderConfigurationRecord.RecordRead ([1, 0, 10, 29, 32 + lowNib] ++ rest)
          = .ok (doviScenarioB, []) := by
  refine ⟨rfl, by decide, by decide, ?_⟩
  intro lowNib rest hn hr
  rw [DOVIDecoderConfigurationRecord.RecordRead]
  rw [readBytes_exact _ (by simp [hr]), cbind_ok]
  dsimp only
  have h0 : byteGet ([1, 0, 10, 29, 32 + lowNib] ++ rest) 0 = 1 := by
    rw [byteGet, List.getD_append _ _ _ _ (by simp)]
    rfl
  have h1 : byteGet ([1, 0, 10, 29, 32 + lowNib] ++ rest) 1 = 0 := by
    rw [byteGet, List.getD_append _ _ _ _ (by simp)]
    rfl
  have h2 : byteGet ([1, 0, 10, 29, 32 + lowNib] ++ rest) 2 = 10 := by
    rw [byteGet, List.getD_append _ _ _ _ (by simp)]
    rfl
  have h3 : byteGet ([1, 0, 10, 29, 32 + lowNib] ++ rest) 3 = 29 := by
    rw [byteGet, List.getD_append _ _ _ _ (by simp)]
    rfl
  have h4 : byteGet ([1, 0, 10, 29, 32 + lowNib] ++ rest) 4 = 32 + lowNib := by
    rw [byteGet, List.getD_append _ _ _ _ (by simp)]
    simp only [List.getD_cons_zero, List.getD_cons_succ]
    omega
  rw [h0, h1, h2, h3, h4]
  have hid : (32 + lowNib) >>> 4 = 2 := by
    rw [shr4]
    omega
  rw [hid]
  rfl

/-- C9 witness: decoding a 24-byte source whose reserved padding differs
from the encoder output (low nibble of byte 4 set to 7, trailing bytes
set to 5) still recovers the scenario-B record. -/
theorem dovi_scenarioB_spec_witness :
    DOVIDecoderConfigurationRecord.RecordRead ([1, 0, 10, 29, 39] ++ List.replicate 19 5)
      = .ok (doviScenarioB, []) :=
  dovi_scenarioB_spec.2.2.2 7 (List.replicate 19 5) (by decide) (by decide)

/-- C10: every record a successful decode returns has its fields within
the declared bit widths, for arbitrary input bytes: an HEVC record has
2-bit profile space, 5-bit profile indicator, 48-bit constraint flags,
12-bit min-spatial-segmentation, 2-bit parallelism/chroma, 3-bit bit
depths, 2-bit length-size and at most 4095 NAL units per array; an AVC
record has 2-bit length-size, at most 31 SPS entries, 2-bit chroma
format and 3-bit bit depths. -/
theorem decode_fields_in_range :
    (∀ (bs rest : List Nat) (r : HEVCDecoderConfigurationRecord),
        HEVCDecoderConfigurationRecord.RecordRead bs = .ok (r, rest) →
        r.GeneralProfileSpace < 4 ∧ r.GenertalProfileIndicator < 32 ∧
        r.GeneralConstraintIndicatorFlags < 2 ^ 48 ∧
        r.MinSpatialSegmentationIndicator < 4096 ∧ r.ParallelismType < 4 ∧
        r.ChromaFormatIndicator < 4 ∧ r.BitDepthLumaMinus8 < 8 ∧
        r.BitDepthChromaMinus8 < 8 ∧ r.LengthSizeMinusOne < 4 ∧
        ∀ a ∈ r.NaluArrays, a.NALUs.length < 4096)
    ∧ (∀ (bs rest : List Nat) (r : AVCDecoderConfigurationRecord),
        AVCDecoderConfigurationRecord.RecordRead bs = .ok (r, rest) →
        r.LengthSizeMinusOne < 4 ∧ r.SequenceParameterSets.length ≤ 31 ∧
        r.ChromaFormat < 4 ∧ r.BitDepthLumaMinus8 < 8 ∧ r.BitDepthChromaMinus8 < 8) :=
  ⟨fun _ _ _ h => hevc_read_bounds h, fun _ _ _ h => avc_read_bounds h⟩

/-- C10 witness: the bounds evaluated on the records produced by
decoding the scenario-A HEVC bytes and the baseline AVC bytes. -/
theorem decode_fields_in_range_witness :
    (hevcScenarioADecoded.GeneralProfileSpace < 4
      ∧ hevcScenarioADecoded.GenertalProfileIndicator < 32
      ∧ hevcScenarioADecoded.GeneralConstraintIndicatorFlags < 2 ^ 48
      ∧ hevcScenarioADecoded.MinSpatialSegmentationIndicator < 4096
      ∧ hevcScenarioADecoded.ParallelismType < 4
      ∧ hevcScenarioADecoded.ChromaFormatIndicator < 4
      ∧ hevcScenarioADecoded.BitDepthLumaMinus8 < 8
      ∧ hevcScenarioADecoded.BitDepthChromaMinus8 < 8
      ∧ hevcScenarioADecoded.LengthSizeMinusOne < 4
      ∧ ∀ a ∈ hevcScenarioADecoded.NaluArrays, a.NALUs.length < 4096)
    ∧ (avcBaseline.LengthSizeMinusOne < 4
      ∧ avcBaseline.SequenceParameterSets.length ≤ 31
      ∧ avcBaseline.ChromaFormat < 4
      ∧ avcBaseline.BitDepthLumaMinus8 < 8
      ∧ avcBaseline.BitDepthChromaMinus8 < 8) :=
  ⟨decode_fields_in_range.1
      (HEVCDecoderConfigurationRecord.RecordWrite hevcScenarioA) [] hevcScenarioADecoded
      (by decide),
   decode_fields_in_range.2
      (AVCDecoderConfigurationRecord.RecordWrite avcBaseline) [] avcBaseline
      (by decide)⟩
